import Mathlib

/-!
Verification of the geotagging metadata codec and batch write-back engine of
the Aerial-Image-Manager repository (python/geotagging/write_gps.py and
python/geotagging/extract_gps.py), shallowly embedded over exact rationals.
Python machine floats are modelled by `ℚ`; the Python `float()` string parser,
the byte-level text codecs and the JSON parser are modelled as explicit
function parameters, since they are host-library boundaries.
-/

namespace AerialGeo

/-- Python `int()` applied to a rational: truncation toward zero. -/
def pyInt (q : ℚ) : ℤ := if 0 ≤ q then ⌊q⌋ else ⌈q⌉

/-- Python `round()` applied to a rational: nearest integer, ties to even. -/
def pyround (q : ℚ) : ℤ :=
  if q - ⌊q⌋ < 1/2 then ⌊q⌋
  else if 1/2 < q - ⌊q⌋ then ⌊q⌋ + 1
  else if ⌊q⌋ % 2 = 0 then ⌊q⌋ else ⌊q⌋ + 1

/-- Python `round(q, nd)` for a positive digit count `nd`. -/
def round_to (nd : ℕ) (q : ℚ) : ℚ := (pyround (q * 10 ^ nd) : ℚ) / 10 ^ nd

/-- `to_rational` from write_gps.py (lines 58-66), on a non-null input:
absolute value, truncated degrees, truncated minutes, seconds rounded at a
fixed denominator of 10000. -/
def to_rational (dec : ℚ) : (ℤ × ℤ) × ((ℤ × ℤ) × (ℤ × ℤ)) :=
  ((pyInt |dec|, 1),
   ((pyInt ((|dec| - pyInt |dec|) * 60), 1),
    (pyround (((|dec| - pyInt |dec|) * 60 - pyInt ((|dec| - pyInt |dec|) * 60)) * 60 * 10000),
     10000)))

/-- The inner `to_float` of `dms_to_decimal` (extract_gps.py lines 73-76) on a
numerator/denominator pair: a zero denominator makes the enclosing decode fail
(`float(tuple)` raises and the exception handler returns `None`). -/
def to_float_pair (x : ℤ × ℤ) : Option ℚ :=
  if x.2 ≠ 0 then some ((x.1 : ℚ) / (x.2 : ℚ)) else none

/-- `dms_to_decimal` from extract_gps.py (lines 69-86): combine the three
rational components, flip the sign for the S and W hemispheres, round to 8
decimal places. -/
def dms_to_decimal (dms : (ℤ × ℤ) × ((ℤ × ℤ) × (ℤ × ℤ))) (ref : String) : Option ℚ :=
  match to_float_pair dms.1, to_float_pair dms.2.1, to_float_pair dms.2.2 with
  | some deg, some mins, some secs =>
      some (round_to 8
        (if ref = ("S") ∨ ref = ("W") then -(deg + mins / 60 + secs / 3600)
         else deg + mins / 60 + secs / 3600))
  | _, _, _ => none

/-- The latitude hemisphere reference chosen by `build_gps_ifd`
(write_gps.py line 73). -/
def lat_ref (lat : ℚ) : String := if 0 ≤ lat then ("N") else ("S")

/-- The longitude hemisphere reference chosen by `build_gps_ifd`
(write_gps.py line 74). -/
def lon_ref (lon : ℚ) : String := if 0 ≤ lon then ("E") else ("W")

/-- The GPS IFD assembled by `build_gps_ifd` (write_gps.py lines 69-85),
with the piexif tag slots as labelled fields. -/
structure GpsIfd where
  latRef : String
  lat : (ℤ × ℤ) × ((ℤ × ℤ) × (ℤ × ℤ))
  lonRef : String
  lon : (ℤ × ℤ) × ((ℤ × ℤ) × (ℤ × ℤ))
  altitude : Option (ℤ × ℤ)
  altitudeRef : Option ℤ
deriving DecidableEq

/-- `build_gps_ifd` from write_gps.py (lines 69-85).  The altitude tags are
stored only when an altitude is given: `(int(abs(alt) * 100), 100)` together
with reference byte `0` for `alt >= 0` and `1` otherwise. -/
def build_gps_ifd (lat lon : ℚ) (alt : Option ℚ) : GpsIfd :=
  { latRef := lat_ref lat
    lat := to_rational lat
    lonRef := lon_ref lon
    lon := to_rational lon
    altitude := alt.map (fun a => (pyInt (|a| * 100), 100))
    altitudeRef := alt.map (fun a => if 0 ≤ a then 0 else 1) }

/-- Python `str.strip()` (whitespace at both ends removed), over the
character list so that it evaluates inside the kernel. -/
def pyStrip (s : String) : String :=
  String.mk (((s.data.dropWhile Char.isWhitespace).reverse.dropWhile Char.isWhitespace).reverse)

/-- ASCII lower-casing of one character, Python `str.lower()` per char. -/
def asciiLower (c : Char) : Char :=
  if ('A' ≤ c ∧ c ≤ 'Z') then Char.ofNat (c.toNat + 32) else c

/-- Python `str.lower()`, over the character list. -/
def pyLower (s : String) : String := String.mk (s.data.map asciiLower)

/-- A row record produced by `load_csv` (write_gps.py lines 122-133): the
physical row index together with the raw (stripped, unparsed) cell values. -/
structure CsvRow where
  row : ℕ
  image_name : String
  latitude : String
  longitude : String
  altitude : String
  phi : String
  alpha : String
  kappa : String
deriving DecidableEq

/-- Python-dict insertion into an association list: overwrite the binding
when the key is present, append it otherwise. -/
def dictInsert {α β : Type} [DecidableEq α] (m : List (α × β)) (k : α) (v : β) :
    List (α × β) :=
  if m.any (fun p => decide (p.1 = k)) then
    m.map (fun p => if p.1 = k then (k, v) else p)
  else m ++ [(k, v)]

/-- Python-dict lookup in an association list built with `dictInsert`. -/
def dictLookup {α β : Type} [DecidableEq α] (m : List (α × β)) (k : α) : Option β :=
  (m.find? (fun p => decide (p.1 = k))).map (fun p => p.2)

/-- The recognised header names of `load_csv` (write_gps.py line 92). -/
def allowed_headers : List String :=
  [("filename"), ("image_name"), ("latitude"), ("longitude"),
   ("altitude"), ("phi"), ("alpha"), ("kappa")]

/-- The header map `{name: i for i, name in enumerate(lowered) if name in
allowed_headers}` of write_gps.py line 100, as a Python-dict association
list. -/
def buildDetected (lowered : List String) : List (String × ℕ) :=
  (lowered.enum.filter (fun p => decide (p.2 ∈ allowed_headers))).foldl
    (fun m p => dictInsert m p.2 p.1) []

/-- The header-detection test of write_gps.py line 102: the detected names
cover {filename, latitude, longitude} or {image_name, latitude, longitude}. -/
def headerCond (detected : List (String × ℕ)) : Bool :=
  (([("filename"), ("latitude"), ("longitude")] : List String).all
      (fun k => (dictLookup detected k).isSome)) ||
  (([("image_name"), ("latitude"), ("longitude")] : List String).all
      (fun k => (dictLookup detected k).isSome))

/-- The blank-row test of write_gps.py line 96: `not row or all(cells strip
to empty)`. -/
def rowIsBlank (row : List String) : Bool :=
  row.isEmpty || row.all (fun c => decide (pyStrip c = ("")))

/-- The positional cell access `(row[pos] or "").strip() if len(row) > pos
else ""` of write_gps.py line 112. -/
def cellAt (row : List String) (pos : ℕ) : String :=
  if h : pos < row.length then pyStrip (row.get ⟨pos, h⟩) else ("")

/-- The `pick` helper of `load_csv` (write_gps.py lines 107-112): use the
header map when it is non-empty and names a column inside the row, and fall
back to the positional index otherwise. -/
def pick (m : List (String × ℕ)) (row : List String) (name : String) (pos : ℕ) : String :=
  if m.isEmpty then cellAt row pos
  else
    match dictLookup m name with
    | some i => if h : i < row.length then pyStrip (row.get ⟨i, h⟩) else cellAt row pos
    | none => cellAt row pos

/-- Construction of one emitted row dict (write_gps.py lines 114-133).  The
orientation columns of the positional fallback are the contiguous indices
4, 5 and 6. -/
def emitRow (m : List (String × ℕ)) (row : List String) (idx : ℕ) : CsvRow :=
  { row := idx
    image_name :=
      if pick m row ("filename") 0 ≠ ("") then pick m row ("filename") 0
      else pick m row ("image_name") 0
    latitude := pick m row ("latitude") 1
    longitude := pick m row ("longitude") 2
    altitude := pick m row ("altitude") 3
    phi := pick m row ("phi") 4
    alpha := pick m row ("alpha") 5
    kappa := pick m row ("kappa") 6 }

/-- The row loop of `load_csv` (write_gps.py lines 95-133).  `hm = none`
means no header decision has been made yet; `some []` is the recorded empty
map of the positional branch; `idx` is the `enumerate(reader, start=1)`
counter, which advances on every physical row, blank ones included. -/
def load_csv_go : Option (List (String × ℕ)) → ℕ → List (List String) → List CsvRow
  | _, _, [] => []
  | hm, idx, row :: rest =>
    if rowIsBlank row then load_csv_go hm (idx + 1) rest
    else
      match hm with
      | some m => emitRow m row idx :: load_csv_go (some m) (idx + 1) rest
      | none =>
        if headerCond (buildDetected (row.map (fun c => pyLower (pyStrip c)))) then
          load_csv_go (some (buildDetected (row.map (fun c => pyLower (pyStrip c))))) (idx + 1) rest
        else emitRow [] row idx :: load_csv_go (some []) (idx + 1) rest

/-- `load_csv` from write_gps.py (lines 88-134), over the list of raw cell
rows produced by the csv reader. -/
def load_csv (cells : List (List String)) : List CsvRow := load_csv_go none 1 cells

/-- Leading U+FEFF removal, Python `.lstrip("﻿")`. -/
def lstripBOM (s : String) : String := String.mk (s.data.dropWhile (fun c => c = '﻿'))

/-- `normalize_float` from write_gps.py (lines 137-148) on a string input:
strip, remove a leading BOM, reject the empty string, then hand over to the
Python `float()` parser, modelled by the `pyFloat` parameter. -/
def normalize_float (pyFloat : String → Option ℚ) (value : String) : Option ℚ :=
  if lstripBOM (pyStrip value) = ("") then none else pyFloat (lstripBOM (pyStrip value))

/-- A scanned image file: its rendered path (`str(path)`) and its basename
(`path.name`). -/
structure ImgPath where
  full : String
  name : String
deriving DecidableEq

/-- The lookup table `{p.name.lower(): p for p in images}` of write_gps.py
line 303: a dict comprehension, so a later file with the same lowercased
basename overwrites an earlier one. -/
def image_map (images : List ImgPath) : String → Option ImgPath :=
  images.foldl (fun m p => fun k => if k = pyLower p.name then some p else m k)
    (fun _ => none)

/-- The host-environment boundary of the batch writer: the Python `float()`
parser, the image lookup table, `os.access(path, W_OK)`, and whether the
piexif load/insert round trip of `write_gps_to_image` succeeds for a path. -/
structure BatchEnv where
  pyFloat : String → Option ℚ
  imageMap : String → Option ImgPath
  writable : ImgPath → Bool
  writeOk : ImgPath → Bool

/-- The per-row outcome of the batch writer: a successful write to a target
image, or a failure with the recorded reason string. -/
inductive Outcome where
  | success (target : ImgPath)
  | failure (reason : String)
deriving DecidableEq

/-- Whether an outcome is a success. -/
def Outcome.isSuccess : Outcome → Bool
  | success _ => true
  | failure _ => false

/-- The per-row body of the loop in `main` (write_gps.py lines 311-400):
the validation checks in source order, then the write. -/
def processRow (env : BatchEnv) (r : CsvRow) : Outcome :=
  if pyLower (pyStrip r.image_name) = ("") then Outcome.failure ("Missing image name")
  else if pyStrip r.latitude = ("") then Outcome.failure ("Invalid latitude")
  else if pyStrip r.longitude = ("") then Outcome.failure ("Invalid longitude")
  else
    match normalize_float env.pyFloat (pyStrip r.latitude) with
    | none => Outcome.failure ("Invalid latitude")
    | some lat =>
      match normalize_float env.pyFloat (pyStrip r.longitude) with
      | none => Outcome.failure ("Invalid longitude")
      | some lon =>
        if ¬ (-90 ≤ lat ∧ lat ≤ 90) then Outcome.failure ("Latitude out of range")
        else if ¬ (-180 ≤ lon ∧ lon ≤ 180) then Outcome.failure ("Longitude out of range")
        else
          match env.imageMap (pyLower (pyStrip r.image_name)) with
          | none => Outcome.failure ("Image not found for " ++ pyStrip r.image_name)
          | some p =>
            if !env.writable p then Outcome.failure ("Read-only file skipped: " ++ p.full)
            else if env.writeOk p then Outcome.success p
            else Outcome.failure
              ("Failed to write GPS for " ++ p.full ++ (": piexif insert failed"))

/-- First failing entry of an ordered checklist: each entry pairs a passing
condition with the reason recorded when it fails. -/
def firstFail : List (Bool × String) → Option String
  | [] => none
  | (ok, reason) :: rest => if ok then firstFail rest else some reason

/-- Modelled from the spec section 4.5: the per-row validation as an ordered
checklist, applied first-failure-wins, followed by the persistence step. -/
def specProcessRow (env : BatchEnv) (r : CsvRow) : Outcome :=
  match firstFail
      [(decide (pyLower (pyStrip r.image_name) ≠ ("")), ("Missing image name")),
       (decide (pyStrip r.latitude ≠ ("")), ("Invalid latitude")),
       (decide (pyStrip r.longitude ≠ ("")), ("Invalid longitude")),
       ((normalize_float env.pyFloat (pyStrip r.latitude)).isSome, ("Invalid latitude")),
       ((normalize_float env.pyFloat (pyStrip r.longitude)).isSome, ("Invalid longitude")),
       ((match normalize_float env.pyFloat (pyStrip r.latitude) with
         | some v => decide (-90 ≤ v ∧ v ≤ 90)
         | none => true), ("Latitude out of range")),
       ((match normalize_float env.pyFloat (pyStrip r.longitude) with
         | some v => decide (-180 ≤ v ∧ v ≤ 180)
         | none => true), ("Longitude out of range")),
       ((env.imageMap (pyLower (pyStrip r.image_name))).isSome,
        ("Image not found for " ++ pyStrip r.image_name)),
       ((match env.imageMap (pyLower (pyStrip r.image_name)) with
         | some p => env.writable p
         | none => true),
        ("Read-only file skipped: " ++
          (match env.imageMap (pyLower (pyStrip r.image_name)) with
           | some p => p.full
           | none => ("")))) ] with
  | some reason => Outcome.failure reason
  | none =>
    match env.imageMap (pyLower (pyStrip r.image_name)) with
    | some p =>
      if env.writeOk p then Outcome.success p
      else Outcome.failure ("Failed to write GPS for " ++ p.full ++ (": piexif insert failed"))
    | none => Outcome.failure ("")

/-- The aggregate result of the batch writer (write_gps.py lines 402-408). -/
structure BatchResult where
  processed : ℕ
  updated : ℕ
  skipped : ℕ
  errors : List (ℕ × String)
deriving DecidableEq

/-- One loop iteration's effect on the counters and error list
(write_gps.py lines 311-400): a success bumps `updated`; any failure bumps
`skipped` and appends exactly one error record; the loop then continues. -/
def batchStep (env : BatchEnv) (st : ℕ × ℕ × List (ℕ × String)) (r : CsvRow) :
    ℕ × ℕ × List (ℕ × String) :=
  match processRow env r with
  | Outcome.success _ => (st.1 + 1, st.2.1, st.2.2)
  | Outcome.failure reason => (st.1, st.2.1 + 1, st.2.2 ++ [(r.row, reason)])

/-- The whole row loop of `main` (write_gps.py lines 305-408): fold the rows
through `batchStep`; `processed` is `len(rows)`. -/
def runBatch (env : BatchEnv) (rows : List CsvRow) : BatchResult :=
  { processed := rows.length
    updated := (rows.foldl (batchStep env) (0, 0, [])).1
    skipped := (rows.foldl (batchStep env) (0, 0, [])).2.1
    errors := (rows.foldl (batchStep env) (0, 0, [])).2.2 }

/-- An orientation triple: phi, alpha, kappa, each optional. -/
abbrev Ori := Option ℚ × Option ℚ × Option ℚ

/-- Whether any of the three orientation fields is present
(`any(v is not None for v in triple)`, extract_gps.py line 193). -/
def ori_any_some (o : Ori) : Bool := o.1.isSome || o.2.1.isSome || o.2.2.isSome

/-- A parsed JSON scalar as `json.loads` can yield it for an object value. -/
inductive JVal where
  | num (q : ℚ)
  | str (s : String)
  | jbool (b : Bool)
  | null
  | other
deriving DecidableEq

/-- Python dict `.get` on a parsed JSON object, modelled as the last binding
of the key in the object's key/value list (later duplicates win, as in a
Python dict built by `json.loads`). -/
def json_get (data : List (String × JVal)) (key : String) : Option JVal :=
  (data.reverse.find? (fun p => decide (p.1 = key))).map (fun p => p.2)

/-- The inner `to_float` of `parse_orientation_comment` (extract_gps.py
lines 154-158): `float(v)` succeeds on numbers and booleans, on strings via
the Python float parser `pyFloat`, and raises (yielding absent) on `None`
— an absent key — as well as on null, objects and arrays. -/
def to_float_jval (pyFloat : String → Option ℚ) : Option JVal → Option ℚ
  | none => none
  | some (JVal.num q) => some q
  | some (JVal.str s) => pyFloat s
  | some (JVal.jbool b) => some (if b then 1 else 0)
  | some JVal.null => none
  | some JVal.other => none

/-- `parse_orientation_comment` from extract_gps.py (lines 146-161): empty
or missing text, or unparseable/non-object JSON (the `jloads` parameter
returning `none`), yields the all-absent triple; otherwise each field is
`to_float(data.get(key))`. -/
def parse_orientation_comment (jloads : String → Option (List (String × JVal)))
    (pyFloat : String → Option ℚ) (text : Option String) : Ori :=
  match text with
  | none => (none, none, none)
  | some t =>
    if t = ("") then (none, none, none)
    else
      match jloads t with
      | none => (none, none, none)
      | some data =>
        (to_float_jval pyFloat (json_get data ("phi")),
         to_float_jval pyFloat (json_get data ("alpha")),
         to_float_jval pyFloat (json_get data ("kappa")))

/-- The charset marker `b"ASCII\x00\x00\x00"` of extract_gps.py line 129. -/
def asciiMarker : List ℕ := [65, 83, 67, 73, 73, 0, 0, 0]

/-- The charset marker `b"UNICODE\x00"` of extract_gps.py line 129 (listed
twice there; the set holds two distinct markers). -/
def unicodeMarker : List ℕ := [85, 78, 73, 67, 79, 68, 69, 0]

/-- `decode_user_comment` from extract_gps.py (lines 122-143) on a byte
value: strip the 8-byte charset marker when it is recognised, then decode
the payload attempting UTF-8 first and falling back to UTF-16; the two text
codecs are the `utf8` and `utf16` parameters. -/
def decode_user_comment (utf8 utf16 : List ℕ → Option String) (raw : List ℕ) :
    Option String :=
  match utf8 (if raw.take 8 = asciiMarker ∨ raw.take 8 = unicodeMarker
              then raw.drop 8 else raw) with
  | some s => some s
  | none =>
    match utf16 (if raw.take 8 = asciiMarker ∨ raw.take 8 = unicodeMarker
                 then raw.drop 8 else raw) with
    | some s => some s
    | none => none

/-- `extract_orientation` from extract_gps.py (lines 189-202), taking the
sidecar parse result and the raw embedded UserComment bytes as inputs: the
sidecar triple wins wholesale when an image path was supplied and any of its
three fields is present; only otherwise is the embedded comment decoded and
JSON-parsed. -/
def extract_orientation (utf8 utf16 : List ℕ → Option String)
    (jloads : String → Option (List (String × JVal))) (pyFloat : String → Option ℚ)
    (imgPathGiven : Bool) (sidecarResult : Ori) (userComment : Option (List ℕ)) : Ori :=
  if imgPathGiven && ori_any_some sidecarResult then sidecarResult
  else
    match userComment with
    | none => (none, none, none)
    | some raw => parse_orientation_comment jloads pyFloat (decode_user_comment utf8 utf16 raw)

/-- Compact `json.dumps(payload, separators=(",", ":"))` for a string-keyed
mapping of numbers rendered by `shw`. -/
def dumps_compact (shw : ℚ → String) (payload : List (String × ℚ)) : String :=
  ("\x7b") ++ String.intercalate (",")
    (payload.map (fun p => ("\"") ++ p.1 ++ ("\":") ++ shw p.2)) ++ ("\x7d")

/-- `format_orientation_json` from write_gps.py (lines 184-194): a mapping
holding exactly the present fields, inserted in the fixed order phi, alpha,
kappa; `None` when the mapping is empty and compact JSON otherwise.  The
Python float rendering is the `shw` parameter. -/
def format_orientation_json (shw : ℚ → String) (phi alpha kappa : Option ℚ) :
    Option String :=
  if ((match phi with | some v => [(("phi"), v)] | none => []) ++
      (match alpha with | some v => [(("alpha"), v)] | none => []) ++
      (match kappa with | some v => [(("kappa"), v)] | none => [])) = [] then none
  else some (dumps_compact shw
    ((match phi with | some v => [(("phi"), v)] | none => []) ++
     (match alpha with | some v => [(("alpha"), v)] | none => []) ++
     (match kappa with | some v => [(("kappa"), v)] | none => [])))

/-- The piexif exif dict as `apply_orientation` sees it: the 0th, Exif and
GPS IFDs as tag-keyed Python dicts of raw byte values. -/
structure ExifDict where
  zeroth : List (ℕ × List ℕ)
  exif : List (ℕ × List ℕ)
  gps : List (ℕ × List ℕ)
deriving DecidableEq

/-- piexif.ExifIFD.UserComment (0x9286). -/
def userCommentTag : ℕ := 37510

/-- `apply_orientation` from write_gps.py (lines 205-217): when the encoder
yields no payload the exif dict is returned unmodified; otherwise the
encoded comment bytes (the charset-prefixing encoder is the `enc`
parameter) overwrite the UserComment slot of the Exif IFD. -/
def apply_orientation (shw : ℚ → String) (enc : String → List ℕ) (d : ExifDict)
    (phi alpha kappa : Option ℚ) : ExifDict :=
  match format_orientation_json shw phi alpha kappa with
  | none => d
  | some comment => ⟨d.zeroth, dictInsert d.exif userCommentTag (enc comment), d.gps⟩

/-- Concrete fixture: two scanned files whose basenames collide
case-insensitively. -/
def demoImages : List ImgPath :=
  [⟨("/a/x.JPG"), ("x.JPG")⟩, ⟨("/b/X.jpg"), ("X.jpg")⟩]

/-- Concrete fixture environment for the batch writer. -/
def demoEnv : BatchEnv :=
  { pyFloat := fun s => if s = ("5") then some 5 else none
    imageMap := image_map demoImages
    writable := fun _ => true
    writeOk := fun _ => true }

/-- Concrete fixture CSV row naming the colliding basename. -/
def demoRow : CsvRow :=
  ⟨1, ("X.jpg"), ("5"), ("5"), (""), (""), (""), ("")⟩

/-- Concrete fixture UTF-8 codec that always succeeds with `"j"`. -/
def u8A : List ℕ → Option String := fun _ => some ("j")

/-- Concrete fixture UTF-16 codec that always fails. -/
def u16A : List ℕ → Option String := fun _ => none

/-- Concrete fixture UTF-8 codec failing exactly on the payload `[49]`. -/
def u8B : List ℕ → Option String := fun l => if l = [49] then none else some ("j")

/-- Concrete fixture UTF-16 codec that always succeeds with `"u"`. -/
def u16B : List ℕ → Option String := fun _ => some ("u")

/-- Concrete fixture JSON parser: the text `"j"` parses to an object with
phi = 9 and alpha = 1 and nothing else parses. -/
def wJloads : String → Option (List (String × JVal)) :=
  fun s => if s = ("j") then some [(("phi"), JVal.num 9), (("alpha"), JVal.num 1)] else none

/-- Concrete fixture Python float parser for strings inside JSON: always
fails. -/
def wPyFloat : String → Option ℚ := fun _ => none

end AerialGeo

namespace AerialGeo

lemma pyround_err (q : ℚ) : |(pyround q : ℚ) - q| ≤ 1/2 := by
  have h0 : (⌊q⌋ : ℚ) ≤ q := Int.floor_le q
  have h1 : q < ⌊q⌋ + 1 := Int.lt_floor_add_one q
  unfold pyround
  split_ifs with hc1 hc2 hc3
  · rw [abs_le]; constructor <;> linarith
  · rw [abs_le]; push_cast; constructor <;> linarith
  · rw [abs_le]; constructor <;> linarith
  · rw [abs_le]; push_cast; constructor <;> linarith

lemma round8_err (q : ℚ) : |round_to 8 q - q| ≤ 1/200000000 := by
  have h := pyround_err (q * 10 ^ 8)
  have hkey : round_to 8 q - q = ((pyround (q * 10 ^ 8) : ℚ) - q * 10 ^ 8) / 10 ^ 8 := by
    unfold round_to; field_simp; ring
  rw [hkey, abs_div, abs_of_pos (by norm_num : (0:ℚ) < 10 ^ 8)]
  rw [show (1:ℚ)/200000000 = (1/2) / 10 ^ 8 by norm_num]
  exact (div_le_div_iff_of_pos_right (by norm_num)).mpr h

lemma decode_close (d : ℚ) (a b : ℤ) :
    |((a : ℚ) / ((1:ℤ):ℚ) + ((b : ℚ) / ((1:ℤ):ℚ)) / 60 +
      ((pyround (((d - a) * 60 - b) * 60 * 10000) : ℚ) / ((10000:ℤ):ℚ)) / 3600) - d|
      ≤ 1/72000000 := by
  have h := pyround_err (((d - (a:ℚ)) * 60 - (b:ℚ)) * 60 * 10000)
  have hkey : ((a : ℚ) / ((1:ℤ):ℚ) + ((b : ℚ) / ((1:ℤ):ℚ)) / 60 +
      ((pyround (((d - a) * 60 - b) * 60 * 10000) : ℚ) / ((10000:ℤ):ℚ)) / 3600) - d
      = ((pyround (((d - (a:ℚ)) * 60 - (b:ℚ)) * 60 * 10000) : ℚ)
          - ((d - (a:ℚ)) * 60 - (b:ℚ)) * 60 * 10000) / 36000000 := by
    push_cast
    ring
  rw [hkey, abs_div, abs_of_pos (by norm_num : (0:ℚ) < 36000000)]
  rw [show (1:ℚ)/72000000 = (1/2) / 36000000 by norm_num]
  exact (div_le_div_iff_of_pos_right (by norm_num)).mpr h

lemma round_trip_aux (x : ℚ) (ref : String)
    (href : (ref = ("S") ∨ ref = ("W")) ↔ x < 0) :
    ∃ v, dms_to_decimal (to_rational x) ref = some v ∧ |v - x| ≤ 1/10000 := by
  have hdc := decode_close |x| (pyInt |x|) (pyInt ((|x| - pyInt |x|) * 60))
  by_cases hx : x < 0
  · have hcond := href.mpr hx
    refine ⟨_, rfl, ?_⟩
    rw [if_pos hcond]
    set V : ℚ := ((pyInt |x| : ℚ) / ((1:ℤ):ℚ) +
      ((pyInt ((|x| - pyInt |x|) * 60) : ℚ) / ((1:ℤ):ℚ)) / 60 +
      ((pyround (((|x| - pyInt |x|) * 60 - pyInt ((|x| - pyInt |x|) * 60)) * 60 * 10000) : ℚ)
        / ((10000:ℤ):ℚ)) / 3600) with hV
    have habs : |x| = -x := abs_of_neg hx
    have h2 : |(-V) - x| ≤ 1/72000000 := by
      have : (-V) - x = -(V - |x|) := by rw [habs]; ring
      rw [this, abs_neg]
      exact hdc
    have h8 := round8_err (-V)
    calc |round_to 8 (-V) - x|
        = |(round_to 8 (-V) - (-V)) + ((-V) - x)| := by ring_nf
      _ ≤ |round_to 8 (-V) - (-V)| + |(-V) - x| := abs_add _ _
      _ ≤ 1/200000000 + 1/72000000 := add_le_add h8 h2
      _ ≤ 1/10000 := by norm_num
  · have hcond : ¬ (ref = ("S") ∨ ref = ("W")) := fun h => hx (href.mp h)
    refine ⟨_, rfl, ?_⟩
    rw [if_neg hcond]
    set V : ℚ := ((pyInt |x| : ℚ) / ((1:ℤ):ℚ) +
      ((pyInt ((|x| - pyInt |x|) * 60) : ℚ) / ((1:ℤ):ℚ)) / 60 +
      ((pyround (((|x| - pyInt |x|) * 60 - pyInt ((|x| - pyInt |x|) * 60)) * 60 * 10000) : ℚ)
        / ((10000:ℤ):ℚ)) / 3600) with hV
    have habs : |x| = x := abs_of_nonneg (not_lt.mp hx)
    have h2 : |V - x| ≤ 1/72000000 := by rw [← habs]; exact hdc
    have h8 := round8_err V
    calc |round_to 8 V - x|
        = |(round_to 8 V - V) + (V - x)| := by ring_nf
      _ ≤ |round_to 8 V - V| + |V - x| := abs_add _ _
      _ ≤ 1/200000000 + 1/72000000 := add_le_add h8 h2
      _ ≤ 1/10000 := by norm_num

/-- Claim C1: the coordinate codec round-trips.  For every latitude in
[-90, 90] and longitude in [-180, 180], encoding with `to_rational` together
with the hemisphere reference derived from the sign (as `build_gps_ifd` does)
and decoding with `dms_to_decimal` yields a value within 1e-4 degrees of the
original. -/
theorem coordinate_codec_round_trip (lat lon : ℚ)
    (h1 : -90 ≤ lat) (h2 : lat ≤ 90) (h3 : -180 ≤ lon) (h4 : lon ≤ 180) :
    (∃ v, dms_to_decimal (to_rational lat) (lat_ref lat) = some v ∧ |v - lat| ≤ 1/10000) ∧
    (∃ v, dms_to_decimal (to_rational lon) (lon_ref lon) = some v ∧ |v - lon| ≤ 1/10000) := by
  constructor
  · apply round_trip_aux
    unfold lat_ref
    split_ifs with h
    · simp only [String.reduceEq, or_self, false_iff, not_lt]
      exact h
    · simp only [String.reduceEq, or_false, true_iff]
      exact lt_of_not_ge h
  · apply round_trip_aux
    unfold lon_ref
    split_ifs with h
    · simp only [String.reduceEq, or_self, false_iff, not_lt]
      exact h
    · simp only [String.reduceEq, false_or, true_iff]
      exact lt_of_not_ge h

/-- Witness for C1 at latitude 33.5 and longitude -0.75. -/
theorem coordinate_codec_round_trip_witness :
    (∃ v, dms_to_decimal (to_rational (67/2)) (lat_ref (67/2)) = some v ∧ |v - 67/2| ≤ 1/10000) ∧
    (∃ v, dms_to_decimal (to_rational (-3/4)) (lon_ref (-3/4)) = some v ∧ |v - (-3/4)| ≤ 1/10000) :=
  coordinate_codec_round_trip (67/2) (-3/4)
    (by norm_num) (by norm_num) (by norm_num) (by norm_num)

/-- Counterexample to C2: `build_gps_ifd` stores the altitude numerator with
`int()` (truncation toward zero), not `round()`.  At altitude 1/64 = 0.015625
(exactly representable in binary floating point, so the float and rational
models agree), `|v| * 100 = 1.5625`; the code stores numerator 1 while the
claimed `round(|v| * 100)` is 2. -/
theorem altitude_truncation_counterexample :
    (build_gps_ifd 0 0 (some (1/64))).altitude = some (1, 100) ∧
    pyround (|(1/64 : ℚ)| * 100) = 2 ∧ (1 : ℤ) ≠ 2 := by
  have habs : |(1/64 : ℚ)| * 100 = 25/16 := by
    rw [abs_of_nonneg (by norm_num : (0:ℚ) ≤ 1/64)]; norm_num
  have hfl : ⌊(25/16 : ℚ)⌋ = 1 := by rw [Int.floor_eq_iff]; norm_num
  refine ⟨?_, ?_, by decide⟩
  · show some (pyInt (|(1/64 : ℚ)| * 100), 100) = some (1, 100)
    simp only [pyInt, habs, hfl]
    norm_num
  · simp only [pyround, habs, hfl]
    norm_num

/-- Claim C2 as amended: for every present altitude `v`, `build_gps_ifd`
stores the altitude as the rational pair `(⌊|v| * 100⌋, 100)` — truncation of
`|v| * 100`, not rounding — and the altitude reference byte is `0` when
`v ≥ 0` and `1` when `v < 0`; when no altitude is present neither tag is
stored. -/
theorem altitude_encoding (lat lon v : ℚ) :
    (build_gps_ifd lat lon (some v)).altitude = some (⌊|v| * 100⌋, 100) ∧
    (build_gps_ifd lat lon (some v)).altitudeRef = some (if 0 ≤ v then 0 else 1) ∧
    (build_gps_ifd lat lon none).altitude = none ∧
    (build_gps_ifd lat lon none).altitudeRef = none := by
  refine ⟨?_, rfl, rfl, rfl⟩
  show some (pyInt (|v| * 100), 100) = some (⌊|v| * 100⌋, 100)
  rw [pyInt, if_pos (by positivity : (0:ℚ) ≤ |v| * 100)]

lemma processRow_eq_spec (env : BatchEnv) (r : CsvRow) :
    processRow env r = specProcessRow env r := by
  by_cases h1 : pyLower (pyStrip r.image_name) = ("")
  · simp [processRow, specProcessRow, firstFail, h1]
  by_cases h2 : pyStrip r.latitude = ("")
  · simp [processRow, specProcessRow, firstFail, h1, h2, normalize_float, lstripBOM]
  by_cases h3 : pyStrip r.longitude = ("")
  · simp [processRow, specProcessRow, firstFail, h1, h2, h3, normalize_float, lstripBOM]
  cases hlat : normalize_float env.pyFloat (pyStrip r.latitude) with
  | none => simp [processRow, specProcessRow, firstFail, h1, h2, h3, hlat]
  | some lat =>
    cases hlon : normalize_float env.pyFloat (pyStrip r.longitude) with
    | none => simp [processRow, specProcessRow, firstFail, h1, h2, h3, hlat, hlon]
    | some lon =>
      by_cases h6 : (-90 ≤ lat ∧ lat ≤ 90)
      case neg => simp [processRow, specProcessRow, firstFail, h1, h2, h3, hlat, hlon, h6]
      by_cases h7 : (-180 ≤ lon ∧ lon ≤ 180)
      case neg => simp [processRow, specProcessRow, firstFail, h1, h2, h3, hlat, hlon, h6, h7]
      cases himg : env.imageMap (pyLower (pyStrip r.image_name)) with
      | none => simp [processRow, specProcessRow, firstFail, h1, h2, h3, hlat, hlon, h6, h7, himg]
      | some p =>
        by_cases h9 : env.writable p = true
        case neg =>
          simp [processRow, specProcessRow, firstFail, h1, h2, h3, hlat, hlon, h6, h7, himg, h9]
        simp [processRow, specProcessRow, firstFail, h1, h2, h3, hlat, hlon, h6, h7, himg, h9]

lemma countP_split {α : Type} (p : α → Bool) (l : List α) :
    l.length = l.countP p + l.countP (fun a => !p a) := by
  induction l with
  | nil => simp
  | cons a t ih => by_cases h : p a <;> simp [List.countP_cons, h, ih] <;> omega

lemma foldBatch_spec (env : BatchEnv) (rows : List CsvRow) :
    ∀ st : ℕ × ℕ × List (ℕ × String),
      (rows.foldl (batchStep env) st).1
        = st.1 + rows.countP (fun r => (processRow env r).isSuccess) ∧
      (rows.foldl (batchStep env) st).2.1
        = st.2.1 + rows.countP (fun r => !(processRow env r).isSuccess) ∧
      (rows.foldl (batchStep env) st).2.2
        = st.2.2 ++ rows.filterMap (fun r =>
            match processRow env r with
            | Outcome.success _ => none
            | Outcome.failure reason => some (r.row, reason)) := by
  induction rows with
  | nil => intro st; simp
  | cons r rest ih =>
    intro st
    obtain ⟨ih1, ih2, ih3⟩ := ih (batchStep env st r)
    cases hpr : processRow env r with
    | success p =>
      have hstep : batchStep env st r = (st.1 + 1, st.2.1, st.2.2) := by
        simp [batchStep, hpr]
      refine ⟨?_, ?_, ?_⟩
      · rw [List.foldl_cons, ih1, hstep, List.countP_cons]
        simp [hpr, Outcome.isSuccess]; omega
      · rw [List.foldl_cons, ih2, hstep, List.countP_cons]
        simp [hpr, Outcome.isSuccess]
      · rw [List.foldl_cons, ih3, hstep, List.filterMap_cons]
        simp [hpr]
    | failure reason =>
      have hstep : batchStep env st r = (st.1, st.2.1 + 1, st.2.2 ++ [(r.row, reason)]) := by
        simp [batchStep, hpr]
      refine ⟨?_, ?_, ?_⟩
      · rw [List.foldl_cons, ih1, hstep, List.countP_cons]
        simp [hpr, Outcome.isSuccess]
      · rw [List.foldl_cons, ih2, hstep, List.countP_cons]
        simp [hpr, Outcome.isSuccess]; omega
      · rw [List.foldl_cons, ih3, hstep, List.filterMap_cons]
        simp [hpr]

/-- Claim C3: the batch writer validates every CSV row with the fixed ordered
checklist (name, latitude present, longitude present, latitude parses,
longitude parses, latitude range, longitude range, case-insensitive image
lookup, writability) — `processRow` coincides with the first-failure-wins
checklist `specProcessRow`; a failing row records exactly one error record;
and no failure aborts the batch: the outcome of a concatenation of row lists
is the concatenation of their outcomes. -/
theorem batch_validation_order (env : BatchEnv) (r : CsvRow) (rows1 rows2 : List CsvRow) :
    processRow env r = specProcessRow env r ∧
    (runBatch env (rows1 ++ rows2)).updated
      = (runBatch env rows1).updated + (runBatch env rows2).updated ∧
    (runBatch env (rows1 ++ rows2)).skipped
      = (runBatch env rows1).skipped + (runBatch env rows2).skipped ∧
    (runBatch env (rows1 ++ rows2)).errors
      = (runBatch env rows1).errors ++ (runBatch env rows2).errors ∧
    (runBatch env [r]).errors.length
      = (if (processRow env r).isSuccess then 0 else 1) := by
  refine ⟨processRow_eq_spec env r, ?_, ?_, ?_, ?_⟩
  · show ((rows1 ++ rows2).foldl (batchStep env) (0, 0, [])).1 = _
    rw [(foldBatch_spec env (rows1 ++ rows2) (0, 0, [])).1, List.countP_append]
    show _ = (rows1.foldl (batchStep env) (0, 0, [])).1 + (rows2.foldl (batchStep env) (0, 0, [])).1
    rw [(foldBatch_spec env rows1 (0, 0, [])).1, (foldBatch_spec env rows2 (0, 0, [])).1]
    simp
  · show ((rows1 ++ rows2).foldl (batchStep env) (0, 0, [])).2.1 = _
    rw [(foldBatch_spec env (rows1 ++ rows2) (0, 0, [])).2.1, List.countP_append]
    show _ = (rows1.foldl (batchStep env) (0, 0, [])).2.1
      + (rows2.foldl (batchStep env) (0, 0, [])).2.1
    rw [(foldBatch_spec env rows1 (0, 0, [])).2.1, (foldBatch_spec env rows2 (0, 0, [])).2.1]
    simp
  · show ((rows1 ++ rows2).foldl (batchStep env) (0, 0, [])).2.2 = _
    rw [(foldBatch_spec env (rows1 ++ rows2) (0, 0, [])).2.2, List.filterMap_append]
    show _ = (rows1.foldl (batchStep env) (0, 0, [])).2.2
      ++ (rows2.foldl (batchStep env) (0, 0, [])).2.2
    rw [(foldBatch_spec env rows1 (0, 0, [])).2.2, (foldBatch_spec env rows2 (0, 0, [])).2.2]
    simp
  · show (([r] : List CsvRow).foldl (batchStep env) (0, 0, [])).2.2.length = _
    rw [(foldBatch_spec env [r] (0, 0, [])).2.2]
    cases hpr : processRow env r <;> simp [hpr, Outcome.isSuccess]

/-- Claim C4: the batch writer's counter invariant.  For every CSV cell list
and environment, `processed` is the number of rows emitted by the CSV loader,
`processed = updated + skipped`, `updated` counts exactly the rows whose
write succeeded, and `skipped` counts all other processed rows. -/
theorem batch_counter_invariant (env : BatchEnv) (cells : List (List String)) :
    (runBatch env (load_csv cells)).processed = (load_csv cells).length ∧
    (runBatch env (load_csv cells)).processed
      = (runBatch env (load_csv cells)).updated + (runBatch env (load_csv cells)).skipped ∧
    (runBatch env (load_csv cells)).updated
      = (load_csv cells).countP (fun r => (processRow env r).isSuccess) ∧
    (runBatch env (load_csv cells)).skipped
      = (load_csv cells).countP (fun r => !(processRow env r).isSuccess) := by
  have h := foldBatch_spec env (load_csv cells) (0, 0, [])
  refine ⟨rfl, ?_, ?_, ?_⟩
  · show (load_csv cells).length
      = ((load_csv cells).foldl (batchStep env) (0, 0, [])).1
        + ((load_csv cells).foldl (batchStep env) (0, 0, [])).2.1
    rw [h.1, h.2.1]
    simpa using countP_split (fun r => (processRow env r).isSuccess) (load_csv cells)
  · show ((load_csv cells).foldl (batchStep env) (0, 0, [])).1 = _
    rw [h.1]; simp
  · show ((load_csv cells).foldl (batchStep env) (0, 0, [])).2.1 = _
    rw [h.2.1]; simp

lemma load_csv_go_rows (cells : List (List String)) :
    ∀ (hm : Option (List (String × ℕ))) (idx : ℕ) (r : CsvRow),
      r ∈ load_csv_go hm idx cells →
      ∃ j, ∃ h : j < cells.length,
        r.row = idx + j ∧ rowIsBlank (cells.get ⟨j, h⟩) = false := by
  induction cells with
  | nil => intro hm idx r hr; simp [load_csv_go] at hr
  | cons row rest ih =>
    intro hm idx r hr
    simp only [load_csv_go] at hr
    by_cases hb : rowIsBlank row
    · rw [if_pos hb] at hr
      obtain ⟨j, hj, h1, h2⟩ := ih hm (idx + 1) r hr
      exact ⟨j + 1, by simpa using Nat.succ_lt_succ hj, by omega, by simpa using h2⟩
    · rw [if_neg hb] at hr
      cases hm with
      | some m =>
        rcases List.mem_cons.mp hr with he | hr2
        · exact ⟨0, by simp, by simp [he, emitRow], by simpa using hb⟩
        · obtain ⟨j, hj, h1, h2⟩ := ih (some m) (idx + 1) r hr2
          exact ⟨j + 1, by simpa using Nat.succ_lt_succ hj, by omega, by simpa using h2⟩
      | none =>
        by_cases hh : headerCond (buildDetected (row.map (fun c => pyLower (pyStrip c))))
        · rw [if_pos hh] at hr
          obtain ⟨j, hj, h1, h2⟩ := ih _ (idx + 1) r hr
          exact ⟨j + 1, by simpa using Nat.succ_lt_succ hj, by omega, by simpa using h2⟩
        · rw [if_neg hh] at hr
          rcases List.mem_cons.mp hr with he | hr2
          · exact ⟨0, by simp, by simp [he, emitRow], by simpa using hb⟩
          · obtain ⟨j, hj, h1, h2⟩ := ih _ (idx + 1) r hr2
            exact ⟨j + 1, by simpa using Nat.succ_lt_succ hj, by omega, by simpa using h2⟩

/-- Counterexample to C5: a blank CSV row does consume a row number.  With a
blank first row, the single emitted row carries `rowNumber = 2` (its physical
1-based position), not `1` (its index among non-blank rows) as the claim
implies. -/
theorem blank_row_number_counterexample :
    (load_csv [[("")], [("a.jpg"), ("1"), ("2")]]).map (fun r => r.row) = [2] ∧
    ([2] : List ℕ) ≠ [1] := by
  constructor
  · rfl
  · decide

/-- Claim C5 as amended: rows whose cells are all empty after trimming are
skipped without emitting a `CsvRow`, but they do consume a row number — the
loader's counter advances on every physical row, so the `rowNumber` carried
by each emitted row is its 1-based physical position in the file (blank and
header rows included), and in particular every emitted row number points at a
non-blank physical row. -/
theorem load_csv_blank_rows (hm : Option (List (String × ℕ))) (idx : ℕ)
    (row : List String) (rest cells : List (List String))
    (hblank : rowIsBlank row = true) :
    load_csv_go hm idx (row :: rest) = load_csv_go hm (idx + 1) rest ∧
    (∀ r ∈ load_csv cells, ∃ j, ∃ h : j < cells.length,
       r.row = 1 + j ∧ rowIsBlank (cells.get ⟨j, h⟩) = false) := by
  constructor
  · simp only [load_csv_go, hblank, if_true]
  · intro r hr
    exact load_csv_go_rows cells none 1 r hr

/-- Witness for the amended C5 on a concrete two-row input with a leading
blank row. -/
theorem load_csv_blank_rows_witness :
    load_csv_go none 1 [[("")], [("a.jpg"), ("1"), ("2")]]
      = load_csv_go none 2 [[("a.jpg"), ("1"), ("2")]] ∧
    (∀ r ∈ load_csv [[("")], [("a.jpg"), ("1"), ("2")]],
       ∃ j, ∃ h : j < ([[("")], [("a.jpg"), ("1"), ("2")]] : List (List String)).length,
         r.row = 1 + j ∧
         rowIsBlank (([[("")], [("a.jpg"), ("1"), ("2")]] : List (List String)).get ⟨j, h⟩)
           = false) :=
  load_csv_blank_rows none 1 [("")] [[("a.jpg"), ("1"), ("2")]]
    [[("")], [("a.jpg"), ("1"), ("2")]] (by decide)

/-- Counterexample to C9: the CSV ingester has no schema-variant flag and no
legacy layout reading orientation from columns 4, 7 and 8.  On a purely
positional row, phi, alpha and kappa come from the contiguous columns 4, 5
and 6; the values at columns 7 and 8 are ignored. -/
theorem legacy_layout_counterexample :
    (load_csv [[("img.jpg"), ("1"), ("2"), ("3"), ("p4"), ("p5"), ("p6"), ("p7"), ("p8")]]).map
        (fun r => (r.phi, r.alpha, r.kappa)) = [(("p4"), ("p5"), ("p6"))] ∧
    ((("p4"), ("p5"), ("p6")) : String × String × String) ≠ (("p4"), ("p7"), ("p8")) := by
  constructor
  · rfl
  · decide

/-- Claim C9 as amended: the CSV ingester supports a single positional
layout — filename, latitude, longitude, altitude at columns 0-3 and the
orientation triple at the contiguous columns 4, 5 and 6 after altitude.
There is no schema-variant flag and no legacy variant taking alpha and kappa
from columns 7 and 8. -/
theorem load_csv_positional_orientation (row : List String)
    (hblank : rowIsBlank row = false)
    (hheader : headerCond (buildDetected (row.map (fun c => pyLower (pyStrip c)))) = false) :
    load_csv [row] = [emitRow [] row 1] ∧
    (emitRow [] row 1).phi = cellAt row 4 ∧
    (emitRow [] row 1).alpha = cellAt row 5 ∧
    (emitRow [] row 1).kappa = cellAt row 6 := by
  refine ⟨?_, rfl, rfl, rfl⟩
  simp only [load_csv, load_csv_go, hblank, hheader, Bool.false_eq_true, if_false]

/-- Witness for the amended C9 on a concrete positional row. -/
theorem load_csv_positional_orientation_witness :
    load_csv [[("img.jpg"), ("1"), ("2"), ("3"), ("p4"), ("p5"), ("p6")]]
      = [emitRow [] [("img.jpg"), ("1"), ("2"), ("3"), ("p4"), ("p5"), ("p6")] 1] ∧
    (emitRow [] [("img.jpg"), ("1"), ("2"), ("3"), ("p4"), ("p5"), ("p6")] 1).phi
      = cellAt [("img.jpg"), ("1"), ("2"), ("3"), ("p4"), ("p5"), ("p6")] 4 ∧
    (emitRow [] [("img.jpg"), ("1"), ("2"), ("3"), ("p4"), ("p5"), ("p6")] 1).alpha
      = cellAt [("img.jpg"), ("1"), ("2"), ("3"), ("p4"), ("p5"), ("p6")] 5 ∧
    (emitRow [] [("img.jpg"), ("1"), ("2"), ("3"), ("p4"), ("p5"), ("p6")] 1).kappa
      = cellAt [("img.jpg"), ("1"), ("2"), ("3"), ("p4"), ("p5"), ("p6")] 6 :=
  load_csv_positional_orientation [("img.jpg"), ("1"), ("2"), ("3"), ("p4"), ("p5"), ("p6")]
    (by decide) (by decide)

/-- Claim C6: orientation read precedence is wholesale, not field-by-field.
When an image path was supplied and the sidecar yields at least one present
field, the read returns exactly the sidecar triple (absent sidecar fields
stay absent even when the embedded comment defines them); when the sidecar
yields no values, the result is determined by the embedded UserComment
alone. -/
theorem orientation_read_precedence (utf8 utf16 : List ℕ → Option String)
    (jloads : String → Option (List (String × JVal))) (pyFloat : String → Option ℚ)
    (sc sc2 : Ori) (uc : Option (List ℕ))
    (hsc : ori_any_some sc = true) (hsc2 : ori_any_some sc2 = false) :
    extract_orientation utf8 utf16 jloads pyFloat true sc uc = sc ∧
    extract_orientation utf8 utf16 jloads pyFloat true sc2 uc
      = (match uc with
         | none => ((none, none, none) : Ori)
         | some raw =>
             parse_orientation_comment jloads pyFloat
               (decode_user_comment utf8 utf16 raw)) := by
  constructor
  · simp [extract_orientation, hsc]
  · simp [extract_orientation, hsc2]

/-- Witness for C6, mirroring the spec's own scenario: the sidecar defines
only phi = 2 while the embedded comment would define phi = 9 and alpha = 1;
the read returns (2, absent, absent), and with an all-absent sidecar the
comment alone is used. -/
theorem orientation_read_precedence_witness :
    extract_orientation u8A u16A wJloads wPyFloat true
        (some 2, none, none) (some [1]) = (some 2, none, none) ∧
    extract_orientation u8A u16A wJloads wPyFloat true
        ((none, none, none) : Ori) (some [1])
      = (match (some [1] : Option (List ℕ)) with
         | none => ((none, none, none) : Ori)
         | some raw =>
             parse_orientation_comment wJloads wPyFloat
               (decode_user_comment u8A u16A raw)) :=
  orientation_read_precedence u8A u16A wJloads wPyFloat
    (some 2, none, none) ((none, none, none) : Ori) (some [1]) (by decide) (by decide)

/-- Claim C7: the orientation comment payload is a compact JSON object with
a key exactly for each present field, in the fixed key order phi, alpha,
kappa; with all three fields absent there is no payload and
`apply_orientation` leaves the exif dict unmodified. -/
theorem orientation_comment_encoding (shw : ℚ → String) (enc : String → List ℕ)
    (d : ExifDict) (phi alpha kappa : Option ℚ) :
    format_orientation_json shw phi alpha kappa
      = (if phi = none ∧ alpha = none ∧ kappa = none then none
         else some (("\x7b") ++ String.intercalate (",")
           (([(("phi"), phi), (("alpha"), alpha), (("kappa"), kappa)]
               : List (String × Option ℚ)).filterMap
             (fun p => p.2.map (fun v => ("\"") ++ p.1 ++ ("\":") ++ shw v))) ++ ("\x7d"))) ∧
    apply_orientation shw enc d none none none = d := by
  constructor
  · rcases phi with _ | a <;> rcases alpha with _ | b <;> rcases kappa with _ | c <;>
      simp [format_orientation_json, dumps_compact]
  · rfl

/-- Claim C8: UserComment decoding strips the 8-byte charset marker exactly
when it is one of the recognised markers, attempts a UTF-8 decode of the
payload, falls back to a UTF-16 decode when the UTF-8 decode fails, and a
field absent from the parsed JSON object is reported as absent, not zero. -/
theorem user_comment_decoding (utf8 utf16 : List ℕ → Option String)
    (jloads : String → Option (List (String × JVal))) (pyFloat : String → Option ℚ)
    (raw : List ℕ) (t : String) (data : List (String × JVal)) :
    ((raw.take 8 = asciiMarker ∨ raw.take 8 = unicodeMarker) →
       decode_user_comment utf8 utf16 raw
         = (match utf8 (raw.drop 8) with
            | some s => some s
            | none => utf16 (raw.drop 8))) ∧
    (¬ (raw.take 8 = asciiMarker ∨ raw.take 8 = unicodeMarker) →
       decode_user_comment utf8 utf16 raw
         = (match utf8 raw with
            | some s => some s
            | none => utf16 raw)) ∧
    (t ≠ ("") → jloads t = some data → (∀ p ∈ data, p.1 ≠ ("phi")) →
       (parse_orientation_comment jloads pyFloat (some t)).1 = none) ∧
    (t ≠ ("") → jloads t = some data → (∀ p ∈ data, p.1 ≠ ("alpha")) →
       (parse_orientation_comment jloads pyFloat (some t)).2.1 = none) ∧
    (t ≠ ("") → jloads t = some data → (∀ p ∈ data, p.1 ≠ ("kappa")) →
       (parse_orientation_comment jloads pyFloat (some t)).2.2 = none) := by
  have habsent : ∀ (key : String), (∀ p ∈ data, p.1 ≠ key) → json_get data key = none := by
    intro key hk
    have : data.reverse.find? (fun p => decide (p.1 = key)) = none := by
      rw [List.find?_eq_none]
      intro p hp
      simpa using hk p (List.mem_reverse.mp hp)
    simp [json_get, this]
  refine ⟨?_, ?_, ?_, ?_, ?_⟩
  · intro h
    simp only [decode_user_comment, if_pos h]
    cases utf8 (raw.drop 8) with
    | none => cases utf16 (raw.drop 8) <;> rfl
    | some s => rfl
  · intro h
    simp only [decode_user_comment, if_neg h]
    cases utf8 raw with
    | none => cases utf16 raw <;> rfl
    | some s => rfl
  · intro ht hj hk
    simp [parse_orientation_comment, ht, hj, habsent ("phi") hk, to_float_jval]
  · intro ht hj hk
    simp [parse_orientation_comment, ht, hj, habsent ("alpha") hk, to_float_jval]
  · intro ht hj hk
    simp [parse_orientation_comment, ht, hj, habsent ("kappa") hk, to_float_jval]

/-- Witness for C8: a marker-prefixed byte string whose payload the UTF-8
codec rejects is decoded by the UTF-16 fallback, and the kappa field, absent
from the fixture JSON object, is reported as absent. -/
theorem user_comment_decoding_witness :
    decode_user_comment u8B u16B (asciiMarker ++ [49]) = some ("u") ∧
    (parse_orientation_comment wJloads wPyFloat (some ("j"))).2.2 = none := by
  have h := user_comment_decoding u8B u16B wJloads wPyFloat (asciiMarker ++ [49]) ("j")
    [(("phi"), JVal.num 9), (("alpha"), JVal.num 1)]
  constructor
  · rw [h.1 (by decide)]
    decide
  · exact h.2.2.2.2 (by decide) (by decide) (by decide)

lemma image_map_eq_find_last (images : List ImgPath) :
    ∀ (acc : String → Option ImgPath) (key : String),
      (images.foldl (fun m p => fun k => if k = pyLower p.name then some p else m k) acc) key
        = (images.reverse.find? (fun p => decide (pyLower p.name = key))).or (acc key) := by
  induction images with
  | nil => intro acc key; simp
  | cons p rest ih =>
    intro acc key
    simp only [List.foldl_cons, List.reverse_cons]
    rw [ih, List.find?_append, Option.or_assoc]
    congr 1
    by_cases hk : pyLower p.name = key
    · simp [List.find?_cons, hk]
    · have hk2 : ¬ key = pyLower p.name := fun h => hk h.symm
      simp [List.find?_cons, hk, hk2]

lemma processRow_success_target (env : BatchEnv) (r : CsvRow) (q : ImgPath)
    (hs : processRow env r = Outcome.success q) :
    env.imageMap (pyLower (pyStrip r.image_name)) = some q := by
  simp only [processRow] at hs
  by_cases h1 : pyLower (pyStrip r.image_name) = ("")
  · rw [if_pos h1] at hs; exact Outcome.noConfusion hs
  rw [if_neg h1] at hs
  by_cases h2 : pyStrip r.latitude = ("")
  · rw [if_pos h2] at hs; exact Outcome.noConfusion hs
  rw [if_neg h2] at hs
  by_cases h3 : pyStrip r.longitude = ("")
  · rw [if_pos h3] at hs; exact Outcome.noConfusion hs
  rw [if_neg h3] at hs
  cases hlat : normalize_float env.pyFloat (pyStrip r.latitude) with
  | none => rw [hlat] at hs; exact Outcome.noConfusion hs
  | some lat =>
    rw [hlat] at hs
    cases hlon : normalize_float env.pyFloat (pyStrip r.longitude) with
    | none => rw [hlon] at hs; exact Outcome.noConfusion hs
    | some lon =>
      rw [hlon] at hs
      simp only [] at hs
      by_cases h6 : ¬ (-90 ≤ lat ∧ lat ≤ 90)
      · rw [if_pos h6] at hs; exact Outcome.noConfusion hs
      rw [if_neg h6] at hs
      by_cases h7 : ¬ (-180 ≤ lon ∧ lon ≤ 180)
      · rw [if_pos h7] at hs; exact Outcome.noConfusion hs
      rw [if_neg h7] at hs
      cases himg : env.imageMap (pyLower (pyStrip r.image_name)) with
      | none => rw [himg] at hs; exact Outcome.noConfusion hs
      | some p =>
        rw [himg] at hs
        simp only [] at hs
        by_cases h9 : (!env.writable p) = true
        · rw [if_pos h9] at hs; exact Outcome.noConfusion hs
        rw [if_neg h9] at hs
        by_cases h10 : env.writeOk p = true
        · rw [if_pos h10] at hs
          injection hs with h
          rw [h]
        · rw [if_neg h10] at hs; exact Outcome.noConfusion hs

/-- Claim C10 (implicit): the batch writer keys its image lookup by
lowercased basename only, so among several scanned files whose basenames are
case-insensitively equal the one inserted last in scan order wins: the
lookup returns the last matching path of the scan list, and a successful row
write targets exactly the path the lookup returns — shadowed files are never
the write target. -/
theorem image_map_last_wins (images : List ImgPath) (key : String)
    (env : BatchEnv) (r : CsvRow) (q : ImgPath)
    (henv : env.imageMap = image_map images)
    (hs : processRow env r = Outcome.success q) :
    image_map images key
      = images.reverse.find? (fun p => decide (pyLower p.name = key)) ∧
    image_map images (pyLower (pyStrip r.image_name)) = some q := by
  constructor
  · show (images.foldl (fun m p => fun k => if k = pyLower p.name then some p else m k)
      (fun _ => none)) key = _
    rw [image_map_eq_find_last images (fun _ => none) key]
    cases images.reverse.find? (fun p => decide (pyLower p.name = key)) <;> rfl
  · rw [← henv]
    exact processRow_success_target env r q hs

/-- Witness for C10: of the two fixture files `/a/x.JPG` and `/b/X.jpg`
(case-insensitively equal basenames), the lookup returns the later
`/b/X.jpg`, and the successful write of the fixture row targets it. -/
theorem image_map_last_wins_witness :
    image_map demoImages ("x.jpg")
      = demoImages.reverse.find? (fun p => decide (pyLower p.name = ("x.jpg"))) ∧
    image_map demoImages (pyLower (pyStrip demoRow.image_name))
      = some ⟨("/b/X.jpg"), ("X.jpg")⟩ :=
  image_map_last_wins demoImages ("x.jpg") demoEnv demoRow
    ⟨("/b/X.jpg"), ("X.jpg")⟩ rfl (by decide)

end AerialGeo
